import Mathlib

/-!
Verification of the frame-session / stack-discipline core of the imgui-rs
wrapper (src/src/lib.rs), shallowly embedded in Lean.

Machine floats (`f32`) are modelled as exact rationals; raw pointers as
natural-number buffer ids; the engine's global state (io fields, the
`CURRENT_UI` slot, draw data) as an explicit record threaded through the
operations.  Engine calls that only matter as events (stack pushes/pops,
begin/end pairs) are modelled as trace elements.
-/

namespace ImguiRs

/-! ## Draw data (sys::ImDrawData and the wrapper views) -/

/-- One vertex of a draw list (`sys::ImDrawVert`): position, uv, packed color. -/
structure ImDrawVert where
  pos : ℚ × ℚ
  uv : ℚ × ℚ
  col : Nat
deriving DecidableEq, Repr

instance : Inhabited ImDrawVert := ⟨⟨(0, 0), (0, 0), 0⟩⟩

/-- One draw command (`sys::ImDrawCmd`): element count, clip rectangle, texture id. -/
structure ImDrawCmd where
  elemCount : Nat
  clipRect : ℚ × ℚ × ℚ × ℚ
  textureId : Nat
deriving DecidableEq, Repr

/-- One engine draw list (`sys::ImDrawList`): command, index and vertex buffers. -/
structure ImDrawListRaw where
  cmdBuffer : List ImDrawCmd
  idxBuffer : List Nat
  vtxBuffer : List ImDrawVert
deriving DecidableEq, Repr

/-- The engine's frame output (`sys::ImDrawData`): a valid flag, the array of
draw-list pointers with its separate element count, and the engine-maintained
totals. -/
structure ImDrawData where
  valid : Bool
  cmdLists : List ImDrawListRaw
  cmdListsCount : Nat
  totalVtxCount : Nat
  totalIdxCount : Nat
deriving DecidableEq, Repr

/-- The borrowed view `DrawList` handed out by `DrawListIterator::next`:
the three slices of one engine draw list. -/
structure DrawList where
  cmdBuffer : List ImDrawCmd
  idxBuffer : List Nat
  vtxBuffer : List ImDrawVert
deriving DecidableEq, Repr

/-- `DrawData::is_valid`: reads the raw `Valid` flag. -/
def DrawData.is_valid (d : ImDrawData) : Bool := d.valid

/-- `DrawData::draw_list_count`: reads the raw `CmdListsCount`. -/
def DrawData.draw_list_count (d : ImDrawData) : Nat := d.cmdListsCount

/-- `DrawData::total_vtx_count`: reads the raw `TotalVtxCount`. -/
def DrawData.total_vtx_count (d : ImDrawData) : Nat := d.totalVtxCount

/-- `DrawData::total_idx_count`: reads the raw `TotalIdxCount`. -/
def DrawData.total_idx_count (d : ImDrawData) : Nat := d.totalIdxCount

/-- Exhausting `DrawListIterator`: `into_iter` builds a slice of
`CmdListsCount` list pointers from `CmdLists`, and `next` maps each pointer to
the `DrawList` view of its command/index/vertex buffers. -/
def DrawData.drawLists (d : ImDrawData) : List DrawList :=
  (d.cmdLists.take d.cmdListsCount).map
    (fun l => { cmdBuffer := l.cmdBuffer, idxBuffer := l.idxBuffer, vtxBuffer := l.vtxBuffer })

/-- Modelled from the spec: `sys::ImDrawData_DeIndexAllBuffers` is native engine
code bundled with the repository (the imgui-sys crate), not under src/.  Per the
spec, de-indexing expands indexed triangles into a flat vertex stream: the
vertex buffer becomes the index buffer mapped through the old vertex buffer (so
its length is the original index count) and the index buffer becomes the
identity sequence `0..N`. -/
def deindexList (l : ImDrawListRaw) : ImDrawListRaw :=
  { l with
    vtxBuffer := l.idxBuffer.map (fun i => l.vtxBuffer.getD i default)
    idxBuffer := List.range l.idxBuffer.length }

/-- `DrawData::deindex_all_buffers`: forwards to the engine transform, which
rewrites every draw list in place. -/
def DrawData.deindex_all_buffers (d : ImDrawData) : ImDrawData :=
  { d with cmdLists := d.cmdLists.map deindexList }

/-! ## The engine io / current-session state and ImGui::frame, Ui::render -/

/-- The engine io fields written by `ImGui::frame` (`sys::ImGuiIO`). -/
structure IOState where
  displaySizeX : ℚ
  displaySizeY : ℚ
  scaleX : ℚ
  scaleY : ℚ
  deltaTime : ℚ
deriving DecidableEq, Repr

/-- The engine-plus-wrapper global state: io fields, the process-wide
`CURRENT_UI` slot (holding the generation id of the live `Ui` session, if any),
a fresh-id counter for sessions, the engine's frame/render step counters, and
the engine's current draw data (what `sys::GetDrawData` returns). -/
structure GuiState where
  io : IOState
  currentUi : Option Nat
  nextUiId : Nat
  frameCount : Nat
  renderCount : Nat
  drawData : ImDrawData
deriving DecidableEq, Repr

/-- `ImGui::frame`: writes display size, the framebuffer scale (componentwise
`size_pixels / size_points` when the points component is strictly positive,
`0.0` otherwise) and delta time into io, runs `sys::NewFrame`, and installs a
fresh session in the `CURRENT_UI` slot; returns the new session's id. -/
def ImGui.frame (s : GuiState) (size_points size_pixels : Nat × Nat) (delta_time : ℚ) :
    GuiState × Nat :=
  let io : IOState :=
    { displaySizeX := (size_points.1 : ℚ)
      displaySizeY := (size_points.2 : ℚ)
      scaleX := if size_points.1 > 0 then (size_pixels.1 : ℚ) / (size_points.1 : ℚ) else 0
      scaleY := if size_points.2 > 0 then (size_pixels.2 : ℚ) / (size_points.2 : ℚ) else 0
      deltaTime := delta_time }
  let uid := s.nextUiId
  ({ s with
      io := io
      frameCount := s.frameCount + 1
      currentUi := some uid
      nextUiId := uid + 1 }, uid)

/-- `Ui::render`: runs `sys::Render`, wraps `sys::GetDrawData` in a `DrawData`
view handed to the consumer callback, propagates the callback's `Err` with `?`
(which skips the rest of the body), and clears `CURRENT_UI` after an `Ok`
callback before returning `Ok(())`. -/
def Ui.render {ε : Type} (s : GuiState) (f : ImDrawData → Except ε Unit) :
    GuiState × Except ε Unit :=
  let s1 := { s with renderCount := s.renderCount + 1 }
  match f s1.drawData with
  | .ok _ => ({ s1 with currentUi := none }, .ok ())
  | .error e => (s1, .error e)

/-! ## Configuration strings (set_ini_filename / set_log_filename) -/

/-- Which configuration string a primitive operation touches. -/
inductive ConfigField
  | ini
  | log
deriving DecidableEq, Repr

/-- The two primitive steps a filename setter performs, in the order the source
executes them.  Buffers are identified by stable ids (an `ImString`'s heap
allocation does not move when the value is moved).  `setEnginePtr` writes the
io pointer field (`none` = null); `rehomeOwned` moves the new value into the
`ImGui` struct field, dropping (freeing) the previously owned buffer. -/
inductive ConfigOp
  | setEnginePtr (field : ConfigField) (p : Option Nat)
  | rehomeOwned (field : ConfigField) (v : Option Nat)
deriving DecidableEq, Repr

/-- State of the two owned string fields, the two engine pointer fields, and
the set of buffer ids freed so far. -/
structure ConfigState where
  iniOwned : Option Nat
  logOwned : Option Nat
  ioIni : Option Nat
  ioLog : Option Nat
  freed : List Nat
deriving DecidableEq, Repr

/-- Append a dropped buffer id (if any) to the freed set. -/
def ConfigState.dropBuf (s : ConfigState) : Option Nat → List Nat
  | some b => s.freed ++ [b]
  | none => s.freed

/-- Execute one primitive configuration step. -/
def execOp (s : ConfigState) : ConfigOp → ConfigState
  | .setEnginePtr .ini p => { s with ioIni := p }
  | .setEnginePtr .log p => { s with ioLog := p }
  | .rehomeOwned .ini v => { s with iniOwned := v, freed := s.dropBuf s.iniOwned }
  | .rehomeOwned .log v => { s with logOwned := v, freed := s.dropBuf s.logOwned }

/-- The operation sequence of `ImGui::set_ini_filename`: first
`io.IniFilename` is set from the new value (null for `None`), then the new
value is moved into `self.ini_filename`, dropping the old string. -/
def set_ini_filename_ops (value : Option Nat) : List ConfigOp :=
  [.setEnginePtr .ini value, .rehomeOwned .ini value]

/-- The operation sequence of `ImGui::set_log_filename`, mirroring
`set_ini_filename` for the log path. -/
def set_log_filename_ops (value : Option Nat) : List ConfigOp :=
  [.setEnginePtr .log value, .rehomeOwned .log value]

/-- Run a sequence of configuration steps. -/
def execOps (s : ConfigState) (ops : List ConfigOp) : ConfigState :=
  ops.foldl execOp s

/-- `ImGui::set_ini_filename` as a state transformer. -/
def set_ini_filename (s : ConfigState) (value : Option Nat) : ConfigState :=
  execOps s (set_ini_filename_ops value)

/-- `ImGui::set_log_filename` as a state transformer. -/
def set_log_filename (s : ConfigState) (value : Option Nat) : ConfigState :=
  execOps s (set_log_filename_ops value)

/-- A (possibly null) buffer reference is live: it does not point into freed
memory. -/
def live (freed : List Nat) : Option Nat → Prop
  | some b => b ∉ freed
  | none => True

instance (freed : List Nat) (o : Option Nat) : Decidable (live freed o) :=
  match o with
  | some b => inferInstanceAs (Decidable (b ∉ freed))
  | none => inferInstanceAs (Decidable True)

/-- Two owned buffer slots do not alias. -/
def optDistinct : Option Nat → Option Nat → Prop
  | some a, some b => a ≠ b
  | _, _ => True

instance (o p : Option Nat) : Decidable (optDistinct o p) :=
  match o, p with
  | some a, some b => inferInstanceAs (Decidable (a ≠ b))
  | some _, none => inferInstanceAs (Decidable True)
  | none, _ => inferInstanceAs (Decidable True)

/-- Neither engine pointer dangles: each points to a not-yet-freed buffer or is
null. -/
def noDangling (s : ConfigState) : Prop :=
  live s.freed s.ioIni ∧ live s.freed s.ioLog

instance (s : ConfigState) : Decidable (noDangling s) :=
  inferInstanceAs (Decidable (_ ∧ _))

/-- Well-formed configuration state: each engine pointer equals the owned
buffer backing it, owned buffers are live, and the two owned buffers do not
alias. -/
def ConfigState.wf (s : ConfigState) : Prop :=
  s.ioIni = s.iniOwned ∧ s.ioLog = s.logOwned ∧
    live s.freed s.iniOwned ∧ live s.freed s.logOwned ∧
    optDistinct s.iniOwned s.logOwned

instance (s : ConfigState) : Decidable s.wf :=
  inferInstanceAs (Decidable (_ ∧ _ ∧ _ ∧ _ ∧ _))

/-- A freshly passed `ImString` buffer: not freed, and distinct from both
currently owned buffers. -/
def freshFor (s : ConfigState) (v : Option Nat) : Prop :=
  live s.freed v ∧ optDistinct v s.iniOwned ∧ optDistinct v s.logOwned

instance (s : ConfigState) (o : Option Nat) : Decidable (freshFor s o) :=
  inferInstanceAs (Decidable (_ ∧ _ ∧ _))

/-! ## Stack operations: item width, identifier, style-variable, color stacks -/

/-- The style-variable indices (`sys::ImGuiStyleVar`) used by `push_style_var`. -/
inductive ImGuiStyleVarIdx
  | Alpha
  | WindowPadding
  | WindowRounding
  | WindowBorderSize
  | WindowMinSize
  | ChildRounding
  | ChildBorderSize
  | PopupRounding
  | PopupBorderSize
  | FramePadding
  | FrameRounding
  | FrameBorderSize
  | ItemSpacing
  | ItemInnerSpacing
  | IndentSpacing
  | GrabMinSize
  | ButtonTextAlign
deriving DecidableEq, Repr

/-- The `StyleVar` enum as consumed by `Ui::push_style_var`: scalar variants
carry an `f32`, vector variants an `ImVec2`. -/
inductive StyleVar
  | Alpha (v : ℚ)
  | WindowPadding (v : ℚ × ℚ)
  | WindowRounding (v : ℚ)
  | WindowBorderSize (v : ℚ)
  | WindowMinSize (v : ℚ × ℚ)
  | ChildRounding (v : ℚ)
  | ChildBorderSize (v : ℚ)
  | PopupRounding (v : ℚ)
  | PopupBorderSize (v : ℚ)
  | FramePadding (v : ℚ × ℚ)
  | FrameRounding (v : ℚ)
  | FrameBorderSize (v : ℚ)
  | ItemSpacing (v : ℚ × ℚ)
  | ItemInnerSpacing (v : ℚ × ℚ)
  | IndentSpacing (v : ℚ)
  | GrabMinSize (v : ℚ)
  | ButtonTextAlign (v : ℚ × ℚ)
deriving DecidableEq, Repr

/-- An `ImVec4` color value. -/
def Color : Type := ℚ × ℚ × ℚ × ℚ

instance : DecidableEq Color := inferInstanceAs (DecidableEq (ℚ × ℚ × ℚ × ℚ))

instance : Repr Color := inferInstanceAs (Repr (ℚ × ℚ × ℚ × ℚ))

/-- The `ImId` identifier tag (`enum ImId` in lib.rs): an integer, a text byte
slice (modelled by its base address and its bytes, with no terminator), or an
opaque pointer. -/
inductive ImId
  | int (i : Int)
  | str (base : Nat) (bytes : List Nat)
  | ptr (p : Nat)
deriving DecidableEq, Repr

/-- One engine stack call issued by the wrapper (the `sys::Push*`/`Pop*`
surface used by the Ui stack helpers).  `popStyleVar`/`popStyleColor` carry the
count argument passed to `sys::PopStyleVar`/`sys::PopStyleColor`. -/
inductive StackOp
  | pushItemWidth (width : ℚ)
  | popItemWidth
  | pushID3 (i : Int)
  | pushID1 (start stop : Nat)
  | pushID2 (p : Nat)
  | popID
  | pushStyleVarF (idx : ImGuiStyleVarIdx) (v : ℚ)
  | pushStyleVarV (idx : ImGuiStyleVarIdx) (v : ℚ × ℚ)
  | popStyleVar (count : Nat)
  | pushStyleColor1 (col : Nat) (value : Color)
  | popStyleColor (count : Nat)
deriving DecidableEq, Repr

/-- `Ui::push_id`: dispatches the three `ImId` variants to the three engine
pushes; the text variant computes `start = s.as_ptr()` and
`end = start.offset(s.len())` and passes the raw byte range (no nul
terminator). -/
def Ui.push_id : ImId → StackOp
  | .int i => .pushID3 i
  | .str base bytes => .pushID1 base (base + bytes.length)
  | .ptr p => .pushID2 p

/-- `Ui::push_style_var`: dispatches each `StyleVar` variant to
`sys::PushStyleVar` (scalar) or `sys::PushStyleVar1` (vector) with the matching
`ImGuiStyleVar` index. -/
def Ui.push_style_var : StyleVar → StackOp
  | .Alpha v => .pushStyleVarF .Alpha v
  | .WindowPadding v => .pushStyleVarV .WindowPadding v
  | .WindowRounding v => .pushStyleVarF .WindowRounding v
  | .WindowBorderSize v => .pushStyleVarF .WindowBorderSize v
  | .WindowMinSize v => .pushStyleVarV .WindowMinSize v
  | .ChildRounding v => .pushStyleVarF .ChildRounding v
  | .ChildBorderSize v => .pushStyleVarF .ChildBorderSize v
  | .PopupRounding v => .pushStyleVarF .PopupRounding v
  | .PopupBorderSize v => .pushStyleVarF .PopupBorderSize v
  | .FramePadding v => .pushStyleVarV .FramePadding v
  | .FrameRounding v => .pushStyleVarF .FrameRounding v
  | .FrameBorderSize v => .pushStyleVarF .FrameBorderSize v
  | .ItemSpacing v => .pushStyleVarV .ItemSpacing v
  | .ItemInnerSpacing v => .pushStyleVarV .ItemInnerSpacing v
  | .IndentSpacing v => .pushStyleVarF .IndentSpacing v
  | .GrabMinSize v => .pushStyleVarF .GrabMinSize v
  | .ButtonTextAlign v => .pushStyleVarV .ButtonTextAlign v

/-- How the enclosed closure of a scoped helper finishes: a normal return
(which includes any early `return` inside the closure — that is still a normal
completion of an `FnOnce()` body) or an unwind (panic) that propagates out of
the helper. -/
inductive Outcome
  | normal
  | unwind
deriving DecidableEq, Repr

/-- A body execution: the engine stack calls it issues, and how it finishes. -/
structure BodyRun where
  ops : List StackOp
  outcome : Outcome
deriving DecidableEq, Repr

/-- `Ui::with_item_width`: `push_item_width(width); f(); pop_item_width()`.
There is no drop guard, so when `f` unwinds the trailing pop is never
executed and the unwind propagates. -/
def Ui.with_item_width (width : ℚ) (body : BodyRun) : BodyRun :=
  { ops := .pushItemWidth width ::
      (body.ops ++ match body.outcome with
        | .normal => [.popItemWidth]
        | .unwind => [])
    outcome := body.outcome }

/-- `Ui::with_id`: `push_id(id); f(); pop_id()`, with no drop guard. -/
def Ui.with_id (id : ImId) (body : BodyRun) : BodyRun :=
  { ops := Ui.push_id id ::
      (body.ops ++ match body.outcome with
        | .normal => [.popID]
        | .unwind => [])
    outcome := body.outcome }

/-- `Ui::with_style_var`: `push_style_var(style_var); f(); PopStyleVar(1)`,
with no drop guard. -/
def Ui.with_style_var (style_var : StyleVar) (body : BodyRun) : BodyRun :=
  { ops := Ui.push_style_var style_var ::
      (body.ops ++ match body.outcome with
        | .normal => [.popStyleVar 1]
        | .unwind => [])
    outcome := body.outcome }

/-- `Ui::with_style_vars`: pushes every entry of the slice in order with
`push_style_var`, runs `f`, then issues one `PopStyleVar(style_vars.len())`,
with no drop guard. -/
def Ui.with_style_vars (style_vars : List StyleVar) (body : BodyRun) : BodyRun :=
  { ops := style_vars.map Ui.push_style_var ++
      (body.ops ++ match body.outcome with
        | .normal => [.popStyleVar style_vars.length]
        | .unwind => [])
    outcome := body.outcome }

/-- `Ui::with_color_var`: `PushStyleColor1(var, color); f(); PopStyleColor(1)`,
with no drop guard. -/
def Ui.with_color_var (var : Nat) (color : Color) (body : BodyRun) : BodyRun :=
  { ops := .pushStyleColor1 var color ::
      (body.ops ++ match body.outcome with
        | .normal => [.popStyleColor 1]
        | .unwind => [])
    outcome := body.outcome }

/-- `Ui::with_color_vars`: pushes every `(var, color)` pair of the slice in
order, runs `f`, then issues one `PopStyleColor(color_vars.len())`, with no
drop guard. -/
def Ui.with_color_vars (color_vars : List (Nat × Color)) (body : BodyRun) : BodyRun :=
  { ops := color_vars.map (fun vc => .pushStyleColor1 vc.1 vc.2) ++
      (body.ops ++ match body.outcome with
        | .normal => [.popStyleColor color_vars.length]
        | .unwind => [])
    outcome := body.outcome }

/-- Number of item-width pushes one op contributes. -/
def widthPush : StackOp → Nat
  | .pushItemWidth _ => 1
  | _ => 0

/-- Number of item-width pops one op contributes. -/
def widthPop : StackOp → Nat
  | .popItemWidth => 1
  | _ => 0

/-- Number of ID-stack pushes one op contributes. -/
def idPush : StackOp → Nat
  | .pushID3 _ => 1
  | .pushID1 _ _ => 1
  | .pushID2 _ => 1
  | _ => 0

/-- Number of ID-stack pops one op contributes. -/
def idPop : StackOp → Nat
  | .popID => 1
  | _ => 0

/-- Number of style-variable pushes one op contributes. -/
def stylePush : StackOp → Nat
  | .pushStyleVarF _ _ => 1
  | .pushStyleVarV _ _ => 1
  | _ => 0

/-- Number of style-variable entries one op pops. -/
def stylePop : StackOp → Nat
  | .popStyleVar n => n
  | _ => 0

/-- Number of color pushes one op contributes. -/
def colorPush : StackOp → Nat
  | .pushStyleColor1 _ _ => 1
  | _ => 0

/-- Number of color entries one op pops. -/
def colorPop : StackOp → Nat
  | .popStyleColor n => n
  | _ => 0

/-- Total count of a kind of push/pop over a trace. -/
def countOps (f : StackOp → Nat) (l : List StackOp) : Nat :=
  (l.map f).sum

/-! ## Conditional begin/end widget scopes -/

/-- Events observable in a conditional widget scope: the engine begin/end
calls and whatever the user body does. -/
inductive WidgetEvent
  | beginMainMenuBar
  | endMainMenuBar
  | beginMenuBar
  | endMenuBar
  | beginPopup (id : Nat) (flags : Nat)
  | endPopup
  | userEvent (tag : Nat)
deriving DecidableEq, Repr

/-- `Ui::main_menu_bar`: calls `sys::BeginMainMenuBar`; only when it returned
true does it run `f` and call `sys::EndMainMenuBar`.  `render` is the engine's
begin result, `body` the events the user closure would produce. -/
def Ui.main_menu_bar (render : Bool) (body : List WidgetEvent) : List WidgetEvent :=
  .beginMainMenuBar :: (if render then body ++ [.endMainMenuBar] else [])

/-- `Ui::menu_bar`: same shape for `sys::BeginMenuBar` / `sys::EndMenuBar`. -/
def Ui.menu_bar (render : Bool) (body : List WidgetEvent) : List WidgetEvent :=
  .beginMenuBar :: (if render then body ++ [.endMenuBar] else [])

/-- `Ui::popup`: calls `sys::BeginPopup(str_id, ImGuiWindowFlags::None)`; only
when it returned true does it run `f` and call `sys::EndPopup`. -/
def Ui.popup (str_id : Nat) (render : Bool) (body : List WidgetEvent) : List WidgetEvent :=
  .beginPopup str_id 0 :: (if render then body ++ [.endPopup] else [])

/-! ## Sample states for concrete witnesses and counterexamples -/

/-- An empty, valid engine draw data. -/
def sampleDrawData : ImDrawData :=
  { valid := true, cmdLists := [], cmdListsCount := 0, totalVtxCount := 0, totalIdxCount := 0 }

/-- A quiescent engine/wrapper state with one session id already handed out. -/
def sampleState : GuiState :=
  { io := { displaySizeX := 0, displaySizeY := 0, scaleX := 0, scaleY := 0, deltaTime := 0 }
    currentUi := none
    nextUiId := 1
    frameCount := 0
    renderCount := 0
    drawData := sampleDrawData }

/-- A state in which session 0 is the live one in the `CURRENT_UI` slot. -/
def stateWithUi : GuiState := { sampleState with currentUi := some 0 }

/-- A consumer callback that fails. -/
def errCallback : ImDrawData → Except Unit Unit := fun _ => .error ()

/-- Engine draw data whose valid flag is false but whose list array is not
empty. -/
def invalidDrawData : ImDrawData :=
  { valid := false
    cmdLists := [{ cmdBuffer := [], idxBuffer := [0], vtxBuffer := [default] }]
    cmdListsCount := 1
    totalVtxCount := 1
    totalIdxCount := 1 }

/-- A state whose engine draw data is flagged invalid yet non-empty. -/
def stateInvalid : GuiState := { stateWithUi with drawData := invalidDrawData }

/-- A consumer that succeeds exactly on an empty draw buffer. -/
def emptyProbe : ImDrawData → Except Unit Unit :=
  fun dd => if DrawData.draw_list_count dd = 0 then .ok () else .error ()

/-- Recognizes the engine-pointer write step of a filename setter. -/
def isEnginePtrWrite : ConfigOp → Bool
  | .setEnginePtr _ _ => true
  | .rehomeOwned _ _ => false

/-- Recognizes the owned-buffer re-home step of a filename setter. -/
def isRehome : ConfigOp → Bool
  | .setEnginePtr _ _ => false
  | .rehomeOwned _ _ => true

/-- A well-formed configuration state with both strings set. -/
def sampleConfig : ConfigState :=
  { iniOwned := some 1, logOwned := some 2, ioIni := some 1, ioLog := some 2, freed := [] }

/-- Engine draw data satisfying the engine's documented consistency: the
totals equal the sums over the lists, and the element count matches the
array. -/
def wfDrawData : ImDrawData :=
  { valid := true
    cmdLists :=
      [ { cmdBuffer := [], idxBuffer := [0, 1, 2], vtxBuffer := [default, default] },
        { cmdBuffer := [], idxBuffer := [0, 0], vtxBuffer := [default] } ]
    cmdListsCount := 2
    totalVtxCount := 3
    totalIdxCount := 5 }

/-! ## Claims -/

/-- Claim C1: `ImGui::frame` installs the new session in the process-wide
`CURRENT_UI` slot: after every begin-frame the slot holds exactly the newly
returned session, and no older session handle is the active one. -/
theorem frame_installs_newest_session (s : GuiState) (sp px : Nat × Nat) (dt : ℚ)
    (old : Nat) (hold : old < s.nextUiId) :
    (ImGui.frame s sp px dt).1.currentUi = some (ImGui.frame s sp px dt).2 ∧
    (ImGui.frame s sp px dt).1.currentUi ≠ some old := by
  refine ⟨rfl, ?_⟩
  simp only [ImGui.frame, ne_eq, Option.some.injEq]
  omega

/-- Witness for C1: in the sample state, session 0 was handed out earlier; a
begin-frame makes the slot hold the fresh session and not session 0. -/
theorem frame_installs_newest_session_witness :
    (ImGui.frame sampleState (0, 0) (0, 0) 0).1.currentUi
        = some (ImGui.frame sampleState (0, 0) (0, 0) 0).2 ∧
    (ImGui.frame sampleState (0, 0) (0, 0) 0).1.currentUi ≠ some 0 :=
  frame_installs_newest_session sampleState (0, 0) (0, 0) 0 0 (by decide)

/-- Claim C4: `ImGui::frame` sets each display framebuffer scale component to
`size_pixels / size_points` on that axis when the points component is strictly
positive and to 0 when it is zero; begin-frame with `size_points = (0,0)`
yields scale `(0,0)` for any `size_pixels`, with no division performed. -/
theorem frame_scale_guarded_division (s : GuiState) (size_points size_pixels : Nat × Nat)
    (dt : ℚ) :
    (ImGui.frame s size_points size_pixels dt).1.io.scaleX
        = (if size_points.1 > 0 then (size_pixels.1 : ℚ) / (size_points.1 : ℚ) else 0) ∧
    (ImGui.frame s size_points size_pixels dt).1.io.scaleY
        = (if size_points.2 > 0 then (size_pixels.2 : ℚ) / (size_points.2 : ℚ) else 0) ∧
    (ImGui.frame s (0, 0) size_pixels dt).1.io.scaleX = 0 ∧
    (ImGui.frame s (0, 0) size_pixels dt).1.io.scaleY = 0 := by
  refine ⟨rfl, rfl, ?_, ?_⟩ <;> simp [ImGui.frame]

/-- Counterexample to C3 as stated: when the consumer callback returns `Err`,
the `?` in `Ui::render` propagates the error before `CURRENT_UI = None`
executes, so the slot still holds the old session (it is not cleared on that
path). -/
theorem render_err_skips_slot_clear :
    (Ui.render stateWithUi errCallback).1.currentUi = some 0 ∧
    (Ui.render stateWithUi errCallback).2 = .error () ∧
    some 0 ≠ (none : Option Nat) :=
  ⟨rfl, rfl, by decide⟩

/-- Claim C3 amended: `Ui::render` triggers the engine render step, hands the
engine's draw data to the consumer callback and returns the callback's result;
the `CURRENT_UI` slot is cleared exactly when the callback returns `Ok` — on
`Err` the error propagates first and the slot is left unchanged.  (Calling
render twice on one session is prevented by move semantics, outside this
model.) -/
theorem render_clears_slot_iff_ok {ε : Type} (s : GuiState) (f : ImDrawData → Except ε Unit) :
    (Ui.render s f).1.renderCount = s.renderCount + 1 ∧
    (Ui.render s f).2 = f s.drawData ∧
    (Ui.render s f).1.currentUi
        = (match f s.drawData with
            | .ok _ => none
            | .error _ => s.currentUi) := by
  cases h : f s.drawData with
  | ok a => cases a; simp [Ui.render, h]
  | error e => simp [Ui.render, h]

/-- Counterexample to C5 as stated: with the engine draw data's valid flag
false but its list array non-empty, render hands the consumer that very data
(`draw_list_count = 1`), not an empty buffer: a consumer that accepts only an
empty buffer observes the difference. -/
theorem render_invalid_flag_not_emptied :
    DrawData.is_valid stateInvalid.drawData = false ∧
    DrawData.draw_list_count stateInvalid.drawData = 1 ∧
    (Ui.render stateInvalid emptyProbe).2 = .error () :=
  ⟨rfl, rfl, rfl⟩

/-- Claim C5 amended: `Ui::render` performs no validity check: it hands the
engine draw data unchanged to the consumer (which can read `is_valid` itself),
and an invalid flag never produces a failure result — render returns `Ok`
whenever the consumer does, even when the flag is false. -/
theorem render_invalid_is_benign {ε : Type} (s : GuiState) (f : ImDrawData → Except ε Unit)
    (hinv : DrawData.is_valid s.drawData = false) (hok : f s.drawData = .ok ()) :
    (Ui.render s f).2 = .ok () ∧ (Ui.render s f).2 = f s.drawData := by
  simp [Ui.render, hok]

/-- Witness for the amended C5: invalid draw data with an accepting consumer
still yields `Ok`. -/
theorem render_invalid_is_benign_witness :
    DrawData.is_valid stateInvalid.drawData = false ∧
    ((Ui.render stateInvalid (fun _ => (.ok () : Except Unit Unit))).2 = .ok () ∧
      (Ui.render stateInvalid (fun _ => (.ok () : Except Unit Unit))).2
        = (fun _ => (.ok () : Except Unit Unit)) stateInvalid.drawData) :=
  ⟨rfl, render_invalid_is_benign stateInvalid (fun _ => .ok ()) rfl rfl⟩

lemma optDistinct_symm {o p : Option Nat} (h : optDistinct o p) : optDistinct p o := by
  cases o <;> cases p <;> simp [optDistinct] at * <;> omega

lemma live_dropBuf (s : ConfigState) (old v : Option Nat)
    (hfree : live s.freed v) (hne : optDistinct v old) :
    live (s.dropBuf old) v := by
  cases v with
  | none => trivial
  | some b =>
    cases old with
    | none => exact hfree
    | some a =>
      simp only [live] at hfree ⊢
      simp only [optDistinct] at hne
      simp [ConfigState.dropBuf, List.mem_append, hfree, hne]

/-- Counterexample to C6 as stated: in both `set_ini_filename` and
`set_log_filename` the engine-pointer write is the first primitive step and
the owned-buffer re-home the second, so the claimed order (buffer re-homed
before the pointer is updated) fails, e.g. at value `some 5`. -/
theorem set_filename_order_cex :
    (set_ini_filename_ops (some 5)).findIdx isEnginePtrWrite
        < (set_ini_filename_ops (some 5)).findIdx isRehome ∧
    (set_log_filename_ops (some 5)).findIdx isEnginePtrWrite
        < (set_log_filename_ops (some 5)).findIdx isRehome := by
  decide

/-- Claim C6 amended: each filename setter updates the engine pointer first,
taking the address of the still-live new value, and re-homes the owned buffer
second; after the call the engine pointer equals the Context-owned buffer (or
null for `None`), well-formedness is preserved, and at no point — before,
between, or after the two steps — does either engine pointer refer to freed
memory. -/
theorem set_filename_safety (s : ConfigState) (v w : Option Nat)
    (hwf : s.wf) (hv : freshFor s v) (hw : freshFor s w) :
    ((set_ini_filename s v).ioIni = v ∧ (set_ini_filename s v).iniOwned = v ∧
      (set_ini_filename s v).wf ∧
      noDangling s ∧
      noDangling (execOp s (.setEnginePtr .ini v)) ∧
      noDangling (set_ini_filename s v)) ∧
    ((set_log_filename s w).ioLog = w ∧ (set_log_filename s w).logOwned = w ∧
      (set_log_filename s w).wf ∧
      noDangling (execOp s (.setEnginePtr .log w)) ∧
      noDangling (set_log_filename s w)) := by
  obtain ⟨h1, h2, h3, h4, h5⟩ := hwf
  obtain ⟨hv1, hv2, hv3⟩ := hv
  obtain ⟨hw1, hw2, hw3⟩ := hw
  refine ⟨⟨rfl, rfl, ?_, ?_, ?_, ?_⟩, rfl, rfl, ?_, ?_, ?_⟩
  · exact ⟨rfl, h2, live_dropBuf s s.iniOwned v hv1 hv2,
      live_dropBuf s s.iniOwned s.logOwned h4 (optDistinct_symm h5), hv3⟩
  · exact ⟨h1.symm ▸ h3, h2.symm ▸ h4⟩
  · exact ⟨hv1, h2.symm ▸ h4⟩
  · refine ⟨live_dropBuf s s.iniOwned v hv1 hv2, ?_⟩
    show live (s.dropBuf s.iniOwned) s.ioLog
    rw [h2]
    exact live_dropBuf s s.iniOwned s.logOwned h4 (optDistinct_symm h5)
  · exact ⟨h1, rfl, live_dropBuf s s.logOwned s.iniOwned h3 h5,
      live_dropBuf s s.logOwned w hw1 hw3, optDistinct_symm hw2⟩
  · exact ⟨h1.symm ▸ h3, hw1⟩
  · refine ⟨?_, live_dropBuf s s.logOwned w hw1 hw3⟩
    show live (s.dropBuf s.logOwned) s.ioIni
    rw [h1]
    exact live_dropBuf s s.logOwned s.iniOwned h3 h5

/-- Witness for the amended C6: replacing both strings of the sample
configuration by fresh buffers keeps pointers synchronized and never
dangling. -/
theorem set_filename_safety_witness :
    sampleConfig.wf ∧ freshFor sampleConfig (some 3) ∧ freshFor sampleConfig none ∧
    (((set_ini_filename sampleConfig (some 3)).ioIni = some 3 ∧
        (set_ini_filename sampleConfig (some 3)).iniOwned = some 3 ∧
        (set_ini_filename sampleConfig (some 3)).wf ∧
        noDangling sampleConfig ∧
        noDangling (execOp sampleConfig (.setEnginePtr .ini (some 3))) ∧
        noDangling (set_ini_filename sampleConfig (some 3))) ∧
      ((set_log_filename sampleConfig none).ioLog = none ∧
        (set_log_filename sampleConfig none).logOwned = none ∧
        (set_log_filename sampleConfig none).wf ∧
        noDangling (execOp sampleConfig (.setEnginePtr .log none)) ∧
        noDangling (set_log_filename sampleConfig none))) :=
  ⟨by decide, by decide, by decide,
    set_filename_safety sampleConfig (some 3) none (by decide) (by decide) (by decide)⟩

/-- Claim C7: when the engine draw data satisfies its documented consistency
(the element count matches the list array and the totals are the sums over the
lists), the wrapper's `total_vtx_count` equals the sum of the vertex-buffer
lengths over the draw lists produced by iterating the buffer, and
`total_idx_count` the corresponding index sum: the accessor and the iterator
agree. -/
theorem totals_equal_iterated_sums (d : ImDrawData)
    (hcount : d.cmdListsCount = d.cmdLists.length)
    (hv : d.totalVtxCount = (d.cmdLists.map (fun l => l.vtxBuffer.length)).sum)
    (hi : d.totalIdxCount = (d.cmdLists.map (fun l => l.idxBuffer.length)).sum) :
    DrawData.total_vtx_count d
        = ((DrawData.drawLists d).map (fun l => l.vtxBuffer.length)).sum ∧
    DrawData.total_idx_count d
        = ((DrawData.drawLists d).map (fun l => l.idxBuffer.length)).sum := by
  unfold DrawData.total_vtx_count DrawData.total_idx_count DrawData.drawLists
  rw [hcount, List.take_length]
  refine ⟨?_, ?_⟩ <;> simp [List.map_map, Function.comp_def, hv, hi]

/-- Witness for C7 at a concrete two-list draw data. -/
theorem totals_equal_iterated_sums_witness :
    (wfDrawData.cmdListsCount = wfDrawData.cmdLists.length ∧
      wfDrawData.totalVtxCount = (wfDrawData.cmdLists.map (fun l => l.vtxBuffer.length)).sum ∧
      wfDrawData.totalIdxCount = (wfDrawData.cmdLists.map (fun l => l.idxBuffer.length)).sum) ∧
    (DrawData.total_vtx_count wfDrawData
        = ((DrawData.drawLists wfDrawData).map (fun l => l.vtxBuffer.length)).sum ∧
      DrawData.total_idx_count wfDrawData
        = ((DrawData.drawLists wfDrawData).map (fun l => l.idxBuffer.length)).sum) :=
  ⟨⟨rfl, rfl, rfl⟩, totals_equal_iterated_sums wfDrawData rfl rfl rfl⟩

lemma map_getD_range {α : Type} [Inhabited α] (l : List α) :
    (List.range l.length).map (fun i => l.getD i default) = l := by
  apply List.ext_getElem
  · simp
  · intro i h1 h2
    simp [List.getD_eq_getElem, List.getElem?_eq_getElem h2]

lemma deindexList_idem (l : ImDrawListRaw) : deindexList (deindexList l) = deindexList l := by
  have h := map_getD_range (l.idxBuffer.map (fun i => l.vtxBuffer.getD i default))
  simp only [List.length_map] at h
  simp only [deindexList, List.length_range, h]

/-- Claim C8: de-indexing rewrites each draw list so its index buffer is the
identity sequence `0..N` and its vertex buffer length equals the original
index count, and the transform is idempotent: a second application changes
nothing. -/
theorem deindex_flat_and_idempotent (d : ImDrawData) :
    (∀ l : ImDrawListRaw,
        (deindexList l).idxBuffer = List.range l.idxBuffer.length ∧
        (deindexList l).vtxBuffer.length = l.idxBuffer.length) ∧
    (DrawData.deindex_all_buffers d).cmdLists = d.cmdLists.map deindexList ∧
    DrawData.deindex_all_buffers (DrawData.deindex_all_buffers d)
        = DrawData.deindex_all_buffers d := by
  refine ⟨fun l => ⟨rfl, by simp [deindexList]⟩, rfl, ?_⟩
  simp only [DrawData.deindex_all_buffers, List.map_map]
  congr 1
  exact List.map_congr_left fun l _ => deindexList_idem l

/-- Claim C9: `Ui::push_id` accepts exactly the three `ImId` tag variants and
dispatches each to the corresponding engine push: an integer tag to `PushID3`,
a text tag to the byte-range `PushID1` with the slice's start pointer and
one-past-the-end pointer `start + len` (no nul terminator involved), and an
opaque address tag to `PushID2`. -/
theorem push_id_dispatch :
    (∀ i : Int, Ui.push_id (ImId.int i) = StackOp.pushID3 i) ∧
    (∀ (base : Nat) (bytes : List Nat),
        Ui.push_id (ImId.str base bytes) = StackOp.pushID1 base (base + bytes.length)) ∧
    (∀ p : Nat, Ui.push_id (ImId.ptr p) = StackOp.pushID2 p) ∧
    (∀ id : ImId,
        (∃ i, id = ImId.int i) ∨ (∃ b bs, id = ImId.str b bs) ∨ (∃ p, id = ImId.ptr p)) := by
  refine ⟨fun i => rfl, fun base bytes => rfl, fun p => rfl, fun id => ?_⟩
  cases id with
  | int i => exact Or.inl ⟨i, rfl⟩
  | str b bs => exact Or.inr (Or.inl ⟨b, bs, rfl⟩)
  | ptr p => exact Or.inr (Or.inr ⟨p, rfl⟩)

/-- Claim C10: in `main_menu_bar`, `menu_bar` and `popup`, the user body and
the end call execute exactly when the begin call returned true: on a true
begin the trace is begin, body, end; on a false begin it is the begin call
alone — no end without a successful begin, no body outside an open scope. -/
theorem scoped_begin_end_matched (body : List WidgetEvent) (str_id : Nat) :
    (Ui.main_menu_bar true body
        = .beginMainMenuBar :: (body ++ [.endMainMenuBar])) ∧
    (Ui.main_menu_bar false body = [.beginMainMenuBar]) ∧
    (Ui.menu_bar true body = .beginMenuBar :: (body ++ [.endMenuBar])) ∧
    (Ui.menu_bar false body = [.beginMenuBar]) ∧
    (Ui.popup str_id true body = .beginPopup str_id 0 :: (body ++ [.endPopup])) ∧
    (Ui.popup str_id false body = [.beginPopup str_id 0]) := by
  exact ⟨rfl, rfl, rfl, rfl, rfl, rfl⟩

lemma countOps_cons (f : StackOp → Nat) (a : StackOp) (l : List StackOp) :
    countOps f (a :: l) = f a + countOps f l := by
  simp [countOps]

lemma countOps_append (f : StackOp → Nat) (l1 l2 : List StackOp) :
    countOps f (l1 ++ l2) = countOps f l1 + countOps f l2 := by
  simp [countOps]

lemma countOps_map_one {α : Type} (g : α → StackOp) (f : StackOp → Nat)
    (hg : ∀ x, f (g x) = 1) (l : List α) :
    countOps f (l.map g) = l.length := by
  induction l with
  | nil => rfl
  | cons x xs ih =>
    simp only [List.map_cons, countOps_cons, hg, ih, List.length_cons]
    omega

lemma countOps_map_zero {α : Type} (g : α → StackOp) (f : StackOp → Nat)
    (hg : ∀ x, f (g x) = 0) (l : List α) :
    countOps f (l.map g) = 0 := by
  induction l with
  | nil => rfl
  | cons x xs ih => simp [countOps_cons, hg, ih]

lemma stylePush_push_style_var (sv : StyleVar) : stylePush (Ui.push_style_var sv) = 1 := by
  cases sv <;> rfl

lemma stylePop_push_style_var (sv : StyleVar) : stylePop (Ui.push_style_var sv) = 0 := by
  cases sv <;> rfl

lemma idPush_push_id (id : ImId) : idPush (Ui.push_id id) = 1 := by
  cases id <;> rfl

lemma idPop_push_id (id : ImId) : idPop (Ui.push_id id) = 0 := by
  cases id <;> rfl

lemma countOps_stylePush_map (vars : List StyleVar) :
    countOps stylePush (vars.map Ui.push_style_var) = vars.length :=
  countOps_map_one _ _ stylePush_push_style_var vars

lemma countOps_stylePop_map (vars : List StyleVar) :
    countOps stylePop (vars.map Ui.push_style_var) = 0 :=
  countOps_map_zero _ _ stylePop_push_style_var vars

lemma countOps_colorPush_map (cvs : List (Nat × Color)) :
    countOps colorPush (cvs.map fun vc => StackOp.pushStyleColor1 vc.1 vc.2) = cvs.length :=
  countOps_map_one _ _ (fun _ => rfl) cvs

lemma countOps_colorPop_map (cvs : List (Nat × Color)) :
    countOps colorPop (cvs.map fun vc => StackOp.pushStyleColor1 vc.1 vc.2) = 0 :=
  countOps_map_zero _ _ (fun _ => rfl) cvs

/-- Counterexample to C2 as stated: the scoped helpers hold no drop guard, so
a body that unwinds (panics) leaves the helper's push unmatched — here
`with_item_width` performs one push and zero pops. -/
theorem with_item_width_unwind_cex :
    countOps widthPush (Ui.with_item_width 1 ⟨[], Outcome.unwind⟩).ops = 1 ∧
    countOps widthPop (Ui.with_item_width 1 ⟨[], Outcome.unwind⟩).ops = 0 :=
  ⟨rfl, rfl⟩

/-- Claim C2 amended: when the enclosed body completes normally (which
includes any early return inside the `FnOnce()` closure), every scoped helper
performs exactly as many pops as pushes on its stack: one push and one pop for
`with_item_width`, `with_id`, `with_style_var` and `with_color_var`, and `n`
pushes answered by a single pop of `n` entries for `with_style_vars` and
`with_color_vars`.  When the body unwinds, the trailing pop is skipped (see
the counterexample). -/
theorem with_helpers_balanced (w : ℚ) (id : ImId) (sv : StyleVar)
    (vars : List StyleVar) (c : Nat) (col : Color) (cvs : List (Nat × Color))
    (ops : List StackOp) :
    (countOps widthPush (Ui.with_item_width w ⟨ops, .normal⟩).ops
          = countOps widthPush ops + 1 ∧
      countOps widthPop (Ui.with_item_width w ⟨ops, .normal⟩).ops
          = countOps widthPop ops + 1) ∧
    (countOps idPush (Ui.with_id id ⟨ops, .normal⟩).ops = countOps idPush ops + 1 ∧
      countOps idPop (Ui.with_id id ⟨ops, .normal⟩).ops = countOps idPop ops + 1) ∧
    (countOps stylePush (Ui.with_style_var sv ⟨ops, .normal⟩).ops
          = countOps stylePush ops + 1 ∧
      countOps stylePop (Ui.with_style_var sv ⟨ops, .normal⟩).ops
          = countOps stylePop ops + 1) ∧
    (countOps stylePush (Ui.with_style_vars vars ⟨ops, .normal⟩).ops
          = countOps stylePush ops + vars.length ∧
      countOps stylePop (Ui.with_style_vars vars ⟨ops, .normal⟩).ops
          = countOps stylePop ops + vars.length) ∧
    (countOps colorPush (Ui.with_color_var c col ⟨ops, .normal⟩).ops
          = countOps colorPush ops + 1 ∧
      countOps colorPop (Ui.with_color_var c col ⟨ops, .normal⟩).ops
          = countOps colorPop ops + 1) ∧
    (countOps colorPush (Ui.with_color_vars cvs ⟨ops, .normal⟩).ops
          = countOps colorPush ops + cvs.length ∧
      countOps colorPop (Ui.with_color_vars cvs ⟨ops, .normal⟩).ops
          = countOps colorPop ops + cvs.length) := by
  refine ⟨⟨?_, ?_⟩, ⟨?_, ?_⟩, ⟨?_, ?_⟩, ⟨?_, ?_⟩, ⟨?_, ?_⟩, ⟨?_, ?_⟩⟩
  · show countOps widthPush (.pushItemWidth w :: (ops ++ [.popItemWidth]))
        = countOps widthPush ops + 1
    rw [countOps_cons, countOps_append]
    simp [countOps, widthPush]
    omega
  · show countOps widthPop (.pushItemWidth w :: (ops ++ [.popItemWidth]))
        = countOps widthPop ops + 1
    rw [countOps_cons, countOps_append]
    simp [countOps, widthPop]
  · show countOps idPush (Ui.push_id id :: (ops ++ [.popID])) = countOps idPush ops + 1
    rw [countOps_cons, countOps_append, idPush_push_id]
    simp [countOps, idPush]
    omega
  · show countOps idPop (Ui.push_id id :: (ops ++ [.popID])) = countOps idPop ops + 1
    rw [countOps_cons, countOps_append, idPop_push_id]
    simp [countOps, idPop]
  · show countOps stylePush (Ui.push_style_var sv :: (ops ++ [.popStyleVar 1]))
        = countOps stylePush ops + 1
    rw [countOps_cons, countOps_append, stylePush_push_style_var]
    simp [countOps, stylePush]
    omega
  · show countOps stylePop (Ui.push_style_var sv :: (ops ++ [.popStyleVar 1]))
        = countOps stylePop ops + 1
    rw [countOps_cons, countOps_append, stylePop_push_style_var]
    simp [countOps, stylePop]
  · show countOps stylePush (vars.map Ui.push_style_var ++ (ops ++ [.popStyleVar vars.length]))
        = countOps stylePush ops + vars.length
    rw [countOps_append, countOps_append, countOps_stylePush_map]
    simp [countOps, stylePush]
    omega
  · show countOps stylePop (vars.map Ui.push_style_var ++ (ops ++ [.popStyleVar vars.length]))
        = countOps stylePop ops + vars.length
    rw [countOps_append, countOps_append, countOps_stylePop_map]
    simp [countOps, stylePop]
  · show countOps colorPush (.pushStyleColor1 c col :: (ops ++ [.popStyleColor 1]))
        = countOps colorPush ops + 1
    rw [countOps_cons, countOps_append]
    simp [countOps, colorPush]
    omega
  · show countOps colorPop (.pushStyleColor1 c col :: (ops ++ [.popStyleColor 1]))
        = countOps colorPop ops + 1
    rw [countOps_cons, countOps_append]
    simp [countOps, colorPop]
  · show countOps colorPush
        ((cvs.map fun vc => StackOp.pushStyleColor1 vc.1 vc.2) ++ (ops ++ [.popStyleColor cvs.length]))
        = countOps colorPush ops + cvs.length
    rw [countOps_append, countOps_append, countOps_colorPush_map]
    simp [countOps, colorPush]
    omega
  · show countOps colorPop
        ((cvs.map fun vc => StackOp.pushStyleColor1 vc.1 vc.2) ++ (ops ++ [.popStyleColor cvs.length]))
        = countOps colorPop ops + cvs.length
    rw [countOps_append, countOps_append, countOps_colorPop_map]
    simp [countOps, colorPop]

end ImguiRs
